import Mathlib

/-!
Shallow embedding of `location_history_json_converter.py` (Google location
history JSON converter) and proofs about the spec's claims.

Conventions of the embedding:
* Python floats are modelled by `ℚ` where the program only compares and
  combines exact decimal inputs (polygon filter, date filter), and by `ℝ`
  where real transcendental functions are involved (Haversine distance).
* `timestampMs`, `latitudeE7`, `longitudeE7` are integers, per the data model.
* Fallible code paths are modelled with `Except`/`Option`; an uncaught
  Python exception is an `Except.error`.
-/

/-- Location record, as in the data model: `timestampMs`, `latitudeE7`,
`longitudeE7` plus optional `accuracy`, `speed`, `altitude`. -/
structure LocationRecord where
  timestampMs : Int
  latitudeE7 : Int
  longitudeE7 : Int
  accuracy : Option Int := none
  speed : Option Int := none
  altitude : Option Int := none
deriving DecidableEq, Repr

/-- Ascending order on records by `timestampMs`, the key of
`sorted(items, key=lambda item: item["timestampMs"])` (line 112). -/
def tsLE (a b : LocationRecord) : Prop := a.timestampMs ≤ b.timestampMs

instance : DecidableRel tsLE := fun a b => inferInstanceAs (Decidable (a.timestampMs ≤ b.timestampMs))

/-! ## Point-in-polygon test (model of shapely `Polygon.contains(Point)`)

The source delegates containment to `shapely` (lines 25-26, 48-50, 128).
Shapely's `contains` is true exactly when the point lies in the interior of
the polygon: points on the boundary are NOT contained.  We model this for a
simple ring by the standard even-odd ray-casting crossing test together with
an explicit boundary exclusion. -/

/-- Does the point `q` lie on the closed segment from `a` to `b`?
(collinearity plus bounding-box membership, exact rational arithmetic). -/
def onSegment (q a b : ℚ × ℚ) : Bool :=
  decide ((b.1 - a.1) * (q.2 - a.2) - (b.2 - a.2) * (q.1 - a.1) = 0) &&
  decide (min a.1 b.1 ≤ q.1) && decide (q.1 ≤ max a.1 b.1) &&
  decide (min a.2 b.2 ≤ q.2) && decide (q.2 ≤ max a.2 b.2)

/-- Does the horizontal ray from `q` (in the positive first-coordinate
direction) cross the open edge from `a` to `b`? Standard even-odd
crossing-number test. -/
def crossesRay (q a b : ℚ × ℚ) : Bool :=
  (decide (a.2 > q.2) != decide (b.2 > q.2)) &&
  decide (q.1 < (b.1 - a.1) * (q.2 - a.2) / (b.2 - a.2) + a.1)

/-- Edges of the closed ring on a vertex list: consecutive pairs, plus the
pair closing the ring back to the first vertex (shapely closes rings). -/
def ringEdges : List (ℚ × ℚ) → List ((ℚ × ℚ) × (ℚ × ℚ))
  | [] => []
  | v :: vs => (v :: vs).zip (vs ++ [v])

/-- Model of shapely `Polygon(ext).contains(point)`: the point is strictly
inside the ring — not on the boundary, and with an odd crossing number. -/
def polygonContains (vs : List (ℚ × ℚ)) (q : ℚ × ℚ) : Bool :=
  (!(ringEdges vs).any fun e => onSegment q e.1 e.2) &&
  ((ringEdges vs).countP fun e => crossesRay q e.1 e.2) % 2 == 1

/-- Model of `check_point(polygon, lon, lat)` (lines 46-50): builds the point
`(lon / 10000000, lat / 10000000)` and tests containment.  (Note the source's
parameter names: the call site at line 129 passes `latitudeE7` as `lon` and
`longitudeE7` as `lat`, so both the ring vertices and the point end up in
(latitude, longitude) axis order.) -/
def check_point (polygon : List (ℚ × ℚ)) (lon lat : ℚ) : Bool :=
  polygonContains polygon (lon / 10000000, lat / 10000000)

/-! ## Date filter -/

/-- Model of `dateCheck(timestampms, startdate, enddate)` (lines 53-57).
Times are modelled as local epoch seconds in `ℚ`; `dt` is the record's
timestamp divided by 1000, and the optional bounds are the local-midnight
datetimes expressed in the same local epoch-seconds scale. `None` bounds
are falsy in Python and skip their test. -/
def dateCheck (timestampms : Int) (startdate enddate : Option ℚ) : Bool :=
  let dt : ℚ := (timestampms : ℚ) / 1000
  if (match startdate with | some s => decide (s > dt) | none => false) then false
  else if (match enddate with | some e => decide (e < dt) | none => false) then false
  else true

/-! ## Polygon construction (lines 116-128) -/

/-- Model of the `ext` construction in `main` (lines 116-127).  With exactly
2 parsed points the code builds the 4-corner rectangle ring in the fixed
winding order of lines 121-122.  Any other branch runs the comprehension
`[(elem.split(",")[0], elem.split(",")[1]) for elem in args.polygon]`
(line 125); each `elem` is a `(float, float)` tuple produced by the argparse
type `valid_polygon` (lines 29-35), and tuples have no `.split` method, so
with one or more points in the non-2 case Python raises `AttributeError`
(modelled by `Except.error`).  With zero points the comprehension yields `[]`
(this branch is unreachable from `main`, where an empty `args.polygon` list
is falsy at line 114). -/
def buildExt : List (ℚ × ℚ) → Except String (List (ℚ × ℚ))
  | [] => Except.ok []
  | [bl, tr] => Except.ok [(bl.1, bl.2), (bl.1, tr.2), (tr.1, tr.2), (tr.1, bl.2)]
  | _ => Except.error "AttributeError: tuple object has no attribute split"

/-! ## The record pipeline (lines 106-129) -/

/-- Filter/sort arguments of `main`: optional date bounds, the chronological
flag, and the constructed polygon ring (`none` when no polygon filter runs). -/
structure FilterArgs where
  startdate : Option ℚ
  enddate : Option ℚ
  chronological : Bool
  ext : Option (List (ℚ × ℚ))
deriving Repr

/-- Model of lines 108-129 of `main`: date filter (only when a bound is
given), then the optional stable ascending sort by `timestampMs`, then the
polygon filter. -/
def processItems (args : FilterArgs) (items : List LocationRecord) : List LocationRecord :=
  let items1 := if args.startdate.isSome || args.enddate.isSome
    then items.filter fun item => dateCheck item.timestampMs args.startdate args.enddate
    else items
  let items2 := if args.chronological then List.insertionSort tsLE items1 else items1
  match args.ext with
  | some ext => items2.filter fun item => check_point ext item.latitudeE7 item.longitudeE7
  | none => items2

/-- Modelled from the spec: the pipeline as the spec words it — "Loader →
Filters → Sorter → Renderer": both filters (date-range and polygon) applied
first, the stable ascending-by-timestamp sort afterwards (only when the
chronological flag is set). -/
def specPipeline (args : FilterArgs) (items : List LocationRecord) : List LocationRecord :=
  let dateFiltered := items.filter fun item => dateCheck item.timestampMs args.startdate args.enddate
  let bothFiltered := match args.ext with
    | some ext => dateFiltered.filter fun item => check_point ext item.latitudeE7 item.longitudeE7
    | none => dateFiltered
  if args.chronological then List.insertionSort tsLE bothFiltered else bothFiltered

/-! ## Command-line arguments and the control flow of `main` -/

/-- Output formats of the `-f` option (line 64). -/
inductive Format where
  | kml | json | csv | js | gpx | gpxtracks
deriving DecidableEq, Repr

/-- Extension string used when deriving a default output name (line 77). -/
def formatName : Format → String
  | .kml => "kml"
  | .json => "json"
  | .csv => "csv"
  | .js => "js"
  | .gpx => "gpx"
  | .gpxtracks => "gpxtracks"

/-- Parsed command-line arguments (lines 61-74).  `polygon` is `none` when
`-p` is absent and `some pts` when given with the parsed point list (possibly
empty, since `nargs` is `*`).  Date bounds are local-midnight datetimes in
local epoch seconds. -/
structure Args where
  input : String
  output : Option String
  format : Format
  jsVariable : String
  startdate : Option ℚ
  enddate : Option ℚ
  chronological : Bool
  polygon : Option (List (ℚ × ℚ))

/-- Model of lines 76-77: when `-o` is absent the output is the input path
with its last dot-extension replaced by the format name,
`'.'.join(args.input.split('.')[:-1]) + '.' + args.format`. -/
def resolvedOutput (args : Args) : String :=
  match args.output with
  | some o => o
  | none => String.intercalate "." ((args.input.splitOn ".").dropLast) ++ "." ++ formatName args.format

/-- Model of the test at line 83, `args.polygon and len(args.polygon) < 2`:
an absent option is `None` (falsy) and an empty list is also falsy, so the
test holds exactly when a non-empty list of fewer than 2 points was given. -/
def polygonTooFew (polygon : Option (List (ℚ × ℚ))) : Bool :=
  match polygon with
  | some l => !l.isEmpty && decide (l.length < 2)
  | none => false

/-- Parsed input document: `locations` is `none` when the key is absent. -/
structure JsonDoc where
  locations : Option (List LocationRecord)

/-- Environment of one invocation: result of reading the input file
(`none` models an IOError at line 88), the parse function (`none` models a
json decode error at line 94), and whether the output file can be created
(line 101). -/
structure Env where
  readResult : Option String
  parseResult : String → Option JsonDoc
  canWriteOutput : Bool

/-- Observable outcome of `main`. `wrote` records the output path and the
final record sequence handed to the renderer; `crash` models an uncaught
Python exception. -/
inductive Outcome where
  | argError (msg : String)
  | inputReadError
  | parseError
  | noData
  | outputWriteError
  | crash (msg : String)
  | wrote (path : String) (items : List LocationRecord)
deriving DecidableEq

/-- Error message of line 84. -/
def polygonErrMsg : String :=
  "Polygon needs at least 2 points to create a rectangule (bottom left and top right)"

/-- Model of `main` (lines 60-261): argument validation, input read, json
parse, the no-data check, output-file creation, the filter/sort/polygon
pipeline, and rendering (abstracted to the final record sequence). -/
def runMain (args : Args) (env : Env) : Outcome :=
  let output := resolvedOutput args
  if args.input == output then .argError "Input and output have to be different files"
  else if polygonTooFew args.polygon then .argError polygonErrMsg
  else match env.readResult with
  | none => .inputReadError
  | some txt =>
    match env.parseResult txt with
    | none => .parseError
    | some data =>
      match data.locations with
      | some items =>
        if items.length > 0 then
          if env.canWriteOutput then
            let fargs : FilterArgs :=
              { startdate := args.startdate, enddate := args.enddate,
                chronological := args.chronological, ext := none }
            match args.polygon with
            | some pts =>
              if pts.isEmpty then .wrote output (processItems fargs items)
              else
                match buildExt pts with
                | .error m => .crash m
                | .ok ext => .wrote output (processItems { fargs with ext := some ext } items)
            | none => .wrote output (processItems fargs items)
          else .outputWriteError
        else .noData
      | none => .noData

/-- Does the control flow of `main` reach the `open(args.output, "w")` call
at line 101?  Mirrors `runMain` up to that point. -/
def opensOutput (args : Args) (env : Env) : Bool :=
  if args.input == resolvedOutput args then false
  else if polygonTooFew args.polygon then false
  else match env.readResult with
  | none => false
  | some txt =>
    match env.parseResult txt with
    | none => false
    | some data =>
      match data.locations with
      | some items => decide (items.length > 0)
      | none => false

/-! ## The json / js renderer (lines 131-150)

The source writes, per record, exactly the fields `timestampMs`,
`latitudeE7`, `longitudeE7` (lines 144-146), comma-separated with a
first-element flag, inside `{"locations":[...]}`.  The integer values are
interpolated with `%s`, i.e. their decimal representation. -/

/-- Decimal digit character (defined for digits 0-9). -/
def natDigitChar : Nat → Char
  | 0 => '0'
  | 1 => '1'
  | 2 => '2'
  | 3 => '3'
  | 4 => '4'
  | 5 => '5'
  | 6 => '6'
  | 7 => '7'
  | 8 => '8'
  | _ => '9'

/-- Decimal representation of a natural number, most significant digit
first (Python `%s` of a non-negative int). -/
def natToChars (n : Nat) : List Char :=
  if n = 0 then ['0'] else ((Nat.digits 10 n).map natDigitChar).reverse

/-- Decimal representation of an integer (Python `%s` of an int). -/
def intToChars (i : Int) : List Char :=
  if i < 0 then '-' :: natToChars i.natAbs else natToChars i.natAbs

/-- Decimal representation of an integer as a string. -/
def intToString (i : Int) : String := ⟨intToChars i⟩

/-- Model of lines 143-147: one record object with exactly the three fields. -/
def renderItem (item : LocationRecord) : String :=
  "\x7b\"timestampMs\":" ++ intToString item.timestampMs ++
  ",\"latitudeE7\":" ++ intToString item.latitudeE7 ++
  ",\"longitudeE7\":" ++ intToString item.longitudeE7 ++ "\x7d"

/-- Model of the loop of lines 136-147: records joined by commas via the
`first` flag. -/
def renderBody : List LocationRecord → String
  | [] => ""
  | [item] => renderItem item
  | item :: rest => renderItem item ++ "," ++ renderBody rest

/-- Model of the json renderer (lines 135-148). -/
def renderJson (items : List LocationRecord) : String :=
  "\x7b\"locations\":[" ++ renderBody items ++ "]\x7d"

/-- Model of the js renderer (lines 131-150): json output with the
`window.<variable> = ` preamble and a trailing semicolon. -/
def renderJs (v : String) (items : List LocationRecord) : String :=
  "window." ++ v ++ " = " ++ renderJson items ++ ";"

/-! ## A JSON parser for the emitted document (for the round-trip claim) -/

/-- Is `c` a decimal digit? -/
def isDigitChar (c : Char) : Bool := decide (48 ≤ c.toNat) && decide (c.toNat ≤ 57)

/-- Numeric value of a digit character. -/
def charToDigit (c : Char) : Nat := c.toNat - 48

/-- Parse a non-empty run of decimal digits into a natural number,
returning the remaining characters. -/
def parseNat (cs : List Char) : Option (Nat × List Char) :=
  let ds := cs.takeWhile isDigitChar
  if ds.isEmpty then none
  else some (Nat.ofDigits 10 ((ds.map charToDigit).reverse), cs.dropWhile isDigitChar)

/-- Parse an optionally `-`-signed decimal integer. -/
def parseInt (cs : List Char) : Option (Int × List Char) :=
  match cs with
  | [] => none
  | c :: rest =>
    if c = '-' then (parseNat rest).map fun p => (-(p.1 : Int), p.2)
    else (parseNat (c :: rest)).map fun p => ((p.1 : Int), p.2)

/-- Consume an expected literal character sequence. -/
def dropLit : List Char → List Char → Option (List Char)
  | [], cs => some cs
  | _ :: _, [] => none
  | p :: ps, c :: cs => if c = p then dropLit ps cs else none

/-- Parse one emitted record object, returning its
`(timestampMs, latitudeE7, longitudeE7)` triple and the rest. -/
def parseItem (cs : List Char) : Option ((Int × Int × Int) × List Char) :=
  (dropLit "\x7b\"timestampMs\":".data cs).bind fun cs1 =>
  (parseInt cs1).bind fun t =>
  (dropLit ",\"latitudeE7\":".data t.2).bind fun cs3 =>
  (parseInt cs3).bind fun la =>
  (dropLit ",\"longitudeE7\":".data la.2).bind fun cs5 =>
  (parseInt cs5).bind fun lo =>
  (dropLit "\x7d".data lo.2).map fun cs7 => ((t.1, la.1, lo.1), cs7)

/-- Parse a non-empty comma-separated record list followed by the closing
`]}`.  `fuel` bounds the recursion depth. -/
def parseItemsAux : Nat → List Char → Option (List (Int × Int × Int))
  | 0, _ => none
  | fuel + 1, cs =>
    (parseItem cs).bind fun tri =>
      if tri.2 = [']', '\x7d'] then some [tri.1]
      else if tri.2.head? = some ',' then
        (parseItemsAux fuel tri.2.tail).map fun l => tri.1 :: l
      else none

/-- Parse the record list (possibly empty) followed by the closing `]}`. -/
def parseItemsList (cs : List Char) : Option (List (Int × Int × Int)) :=
  if cs = [']', '\x7d'] then some [] else parseItemsAux cs.length cs

/-- Parse a whole emitted json document into its list of
`(timestampMs, latitudeE7, longitudeE7)` triples. -/
def parseLocations (s : String) : Option (List (Int × Int × Int)) :=
  (dropLit "\x7b\"locations\":[".data s.data).bind fun cs => parseItemsList cs

/-- Projection of a record to the triple of emitted fields. -/
def tripleOf (r : LocationRecord) : Int × Int × Int :=
  (r.timestampMs, r.latitudeE7, r.longitudeE7)

/-- Record with the optional fields cleared. -/
def clearOptional (r : LocationRecord) : LocationRecord :=
  { timestampMs := r.timestampMs, latitudeE7 := r.latitudeE7, longitudeE7 := r.longitudeE7 }

/-! ## Commutation of filtering with the stable sort (for the pipeline claim) -/

instance : IsTotal LocationRecord tsLE :=
  ⟨fun a b => le_total a.timestampMs b.timestampMs⟩

instance : IsTrans LocationRecord tsLE :=
  ⟨fun _ _ _ hab hbc => le_trans hab hbc⟩

theorem orderedInsert_eq_cons {α : Type} (r : α → α → Prop) [DecidableRel r] (x : α) :
    ∀ m : List α, (∀ y ∈ m, r x y) → m.orderedInsert r x = x :: m
  | [], _ => rfl
  | y :: m, h => by simp [List.orderedInsert, if_pos (h y (List.mem_cons_self y m))]

theorem filter_orderedInsert {α : Type} (r : α → α → Prop) [DecidableRel r] [IsTrans α r]
    (p : α → Bool) (x : α) :
    ∀ l : List α, l.Sorted r →
      (l.orderedInsert r x).filter p =
        if p x then (l.filter p).orderedInsert r x else l.filter p
  | [], _ => by
    simp only [List.orderedInsert, List.filter]
    cases hx : p x <;> simp [hx, List.orderedInsert]
  | b :: l, hs => by
    rcases List.sorted_cons.mp hs with ⟨hb, hl⟩
    by_cases hrb : r x b
    · rw [List.orderedInsert_of_le r l hrb]
      have hall : ∀ y ∈ (b :: l).filter p, r x y := by
        intro y hy
        rcases List.mem_cons.mp (List.mem_of_mem_filter hy) with h | h
        · exact h ▸ hrb
        · exact IsTrans.trans _ _ _ hrb (hb y h)
      cases hx : p x with
      | true =>
        rw [if_pos rfl, orderedInsert_eq_cons r x _ hall]
        simp [List.filter, hx]
      | false =>
        simp [List.filter, hx]
    · have hins : (b :: l).orderedInsert r x = b :: l.orderedInsert r x := by
        simp [List.orderedInsert, if_neg hrb]
      rw [hins]
      have ih := filter_orderedInsert r p x l hl
      cases hx : p x with
      | true =>
        rw [hx, if_pos rfl] at ih
        rw [if_pos rfl]
        cases hpb : p b with
        | true =>
          have : (b :: l).filter p = b :: l.filter p := by simp [List.filter, hpb]
          rw [this, List.orderedInsert, if_neg hrb]
          simp [List.filter, hpb, ih]
        | false =>
          have : (b :: l).filter p = l.filter p := by simp [List.filter, hpb]
          rw [this, ← ih]
          simp [List.filter, hpb]
      | false =>
        rw [hx, if_neg (by simp)] at ih
        rw [if_neg (by simp)]
        cases hpb : p b with
        | true => simp [List.filter, hpb, ih]
        | false => simp [List.filter, hpb, ih]

theorem filter_insertionSort {α : Type} (r : α → α → Prop) [DecidableRel r]
    [IsTotal α r] [IsTrans α r] (p : α → Bool) :
    ∀ l : List α, (l.insertionSort r).filter p = (l.filter p).insertionSort r
  | [] => rfl
  | a :: l => by
    rw [List.insertionSort]
    rw [filter_orderedInsert r p a _ (List.sorted_insertionSort r l)]
    cases ha : p a with
    | true =>
      have : (a :: l).filter p = a :: l.filter p := by simp [List.filter, ha]
      rw [if_pos rfl, this, List.insertionSort, filter_insertionSort r p l]
    | false =>
      have : (a :: l).filter p = l.filter p := by simp [List.filter, ha]
      rw [if_neg (by simp), this, filter_insertionSort r p l]

/-- C3: for every input record list and every combination of date bounds,
polygon and the chronological flag, the record sequence handed to the
renderer (`processItems`, the code order: date filter, then sort, then
polygon filter) equals the spec pipeline (both filters first, the stable
ascending-by-timestamp sort afterwards). -/
theorem pipeline_filters_then_sort (args : FilterArgs) (items : List LocationRecord) :
    processItems args items = specPipeline args items := by
  unfold processItems specPipeline
  have hdate : (if args.startdate.isSome || args.enddate.isSome
      then items.filter fun item => dateCheck item.timestampMs args.startdate args.enddate
      else items) =
      items.filter fun item => dateCheck item.timestampMs args.startdate args.enddate := by
    split
    · rfl
    · next h =>
      have h1 : args.startdate = none := by
        cases hs : args.startdate <;> simp [hs] at h ⊢
      have h2 : args.enddate = none := by
        cases hs : args.enddate <;> simp [hs] at h ⊢
      rw [h1, h2]
      exact (List.filter_eq_self.mpr fun a _ => rfl).symm
  rw [hdate]
  cases hext : args.ext with
  | none => rfl
  | some ext =>
    cases hc : args.chronological with
    | false => simp
    | true =>
      simp only [if_pos rfl]
      exact filter_insertionSort tsLE _ _

/-! ## Round-trip lemmas for the json renderer -/

theorem string_data_append (a b : String) : (a ++ b).data = a.data ++ b.data := by
  cases a; cases b; rfl

theorem isDigitChar_natDigitChar {d : Nat} (hd : d < 10) :
    isDigitChar (natDigitChar d) = true := by
  interval_cases d <;> rfl

theorem charToDigit_natDigitChar {d : Nat} (hd : d < 10) :
    charToDigit (natDigitChar d) = d := by
  interval_cases d <;> rfl

theorem takeWhile_append_eq (p : Char → Bool) :
    ∀ ds rest : List Char, (∀ c ∈ ds, p c = true) →
      (∀ c, rest.head? = some c → p c = false) →
      (ds ++ rest).takeWhile p = ds ∧ (ds ++ rest).dropWhile p = rest
  | [], rest, _, hr => by
    cases rest with
    | nil => exact ⟨rfl, rfl⟩
    | cons c t => simp [List.takeWhile_cons, List.dropWhile_cons, hr c rfl]
  | d :: ds, rest, hd, hr => by
    have hpd : p d = true := hd d (List.mem_cons_self d ds)
    have ih := takeWhile_append_eq p ds rest (fun c hc => hd c (List.mem_cons_of_mem d hc)) hr
    simp [List.takeWhile_cons, List.dropWhile_cons, hpd, ih.1, ih.2]

theorem natToChars_digits (n : Nat) : ∀ c ∈ natToChars n, isDigitChar c = true := by
  intro c hc
  unfold natToChars at hc
  split at hc
  · rcases List.mem_singleton.mp hc with rfl
    rfl
  · rw [List.mem_reverse, List.mem_map] at hc
    obtain ⟨d, hd, rfl⟩ := hc
    exact isDigitChar_natDigitChar (Nat.digits_lt_base (by norm_num) hd)

theorem natToChars_ne_nil (n : Nat) : natToChars n ≠ [] := by
  unfold natToChars
  split
  · simp
  · next h =>
    simp only [ne_eq, List.reverse_eq_nil_iff, List.map_eq_nil_iff]
    exact Nat.digits_ne_nil_iff_ne_zero.mpr h

theorem ofDigits_natToChars (n : Nat) :
    Nat.ofDigits 10 (((natToChars n).map charToDigit).reverse) = n := by
  unfold natToChars
  split
  · next h => subst h; simp [charToDigit, Nat.ofDigits]
  · rw [List.map_reverse, List.reverse_reverse, List.map_map]
    have : (Nat.digits 10 n).map (charToDigit ∘ natDigitChar) = Nat.digits 10 n := by
      have h2 : (Nat.digits 10 n).map (charToDigit ∘ natDigitChar) =
          (Nat.digits 10 n).map id :=
        List.map_congr_left fun d hd =>
          charToDigit_natDigitChar (Nat.digits_lt_base (by norm_num) hd)
      rw [h2, List.map_id]
    rw [this, Nat.ofDigits_digits]

theorem parseNat_natToChars (n : Nat) (rest : List Char)
    (hr : ∀ c, rest.head? = some c → isDigitChar c = false) :
    parseNat (natToChars n ++ rest) = some (n, rest) := by
  obtain ⟨ht, hd⟩ := takeWhile_append_eq isDigitChar (natToChars n) rest (natToChars_digits n) hr
  unfold parseNat
  simp only [ht, hd]
  rw [if_neg (by simp [natToChars_ne_nil n])]
  rw [ofDigits_natToChars]

theorem parseInt_intToChars (i : Int) (rest : List Char)
    (hr : ∀ c, rest.head? = some c → isDigitChar c = false) :
    parseInt (intToChars i ++ rest) = some (i, rest) := by
  unfold intToChars
  split
  · next hneg =>
    rw [List.cons_append]
    unfold parseInt
    simp only [if_pos rfl]
    rw [parseNat_natToChars _ _ hr, Option.map_some']
    have h1 : -((i.natAbs : Nat) : Int) = i := by omega
    rw [h1]
    simp
  · next hpos =>
    obtain ⟨c, cs, hc⟩ : ∃ c cs, natToChars i.natAbs = c :: cs := by
      cases h : natToChars i.natAbs with
      | nil => exact absurd h (natToChars_ne_nil _)
      | cons c cs => exact ⟨c, cs, rfl⟩
    have hcd : isDigitChar c = true := natToChars_digits _ c (hc ▸ List.mem_cons_self c cs)
    have hcne : ¬(c = '-') := by
      intro h
      subst h
      exact absurd hcd (by decide)
    rw [hc, List.cons_append]
    unfold parseInt
    simp only [if_neg hcne]
    rw [← List.cons_append, ← hc, parseNat_natToChars _ _ hr, Option.map_some']
    have h1 : ((i.natAbs : Nat) : Int) = i := by omega
    rw [h1]

theorem dropLit_append : ∀ p rest : List Char, dropLit p (p ++ rest) = some rest
  | [], _ => rfl
  | c :: p, rest => by simp [dropLit, dropLit_append p rest]

theorem notDigit_head_append (c0 : Char) (t x : List Char) (h : isDigitChar c0 = false) :
    ∀ c, ((c0 :: t) ++ x).head? = some c → isDigitChar c = false := by
  intro c hc
  rw [List.cons_append, List.head?_cons] at hc
  injection hc with h2
  rwa [← h2]

theorem renderItem_data (r : LocationRecord) :
    (renderItem r).data =
      "\x7b\"timestampMs\":".data ++ (intToChars r.timestampMs ++
      (",\"latitudeE7\":".data ++ (intToChars r.latitudeE7 ++
      (",\"longitudeE7\":".data ++ (intToChars r.longitudeE7 ++ "\x7d".data))))) := by
  simp only [renderItem, string_data_append, intToString, List.append_assoc]

theorem parseItem_append (r : LocationRecord) (rest : List Char) :
    parseItem ((renderItem r).data ++ rest) = some (tripleOf r, rest) := by
  rw [renderItem_data]
  unfold parseItem
  simp only [List.append_assoc]
  rw [dropLit_append]
  simp only [Option.some_bind]
  rw [parseInt_intToChars _ _ (notDigit_head_append ',' "\"latitudeE7\":".data _ rfl)]
  simp only [Option.some_bind]
  rw [dropLit_append]
  simp only [Option.some_bind]
  rw [parseInt_intToChars _ _ (notDigit_head_append ',' "\"longitudeE7\":".data _ rfl)]
  simp only [Option.some_bind]
  rw [dropLit_append]
  simp only [Option.some_bind]
  rw [parseInt_intToChars _ _ (notDigit_head_append '\x7d' [] _ rfl)]
  simp only [Option.some_bind]
  rw [dropLit_append, Option.map_some']
  rfl

theorem renderBody_cons_data (r x : LocationRecord) (xs : List LocationRecord) :
    (renderBody (r :: x :: xs)).data =
      (renderItem r).data ++ ',' :: (renderBody (x :: xs)).data := by
  show (renderItem r ++ "," ++ renderBody (x :: xs)).data = _
  simp [string_data_append]

theorem renderItem_data_len (r : LocationRecord) : 1 ≤ (renderItem r).data.length := by
  rw [renderItem_data]
  simp only [List.length_append, List.length_cons, List.length_nil]
  omega

theorem renderBody_data_len :
    ∀ items : List LocationRecord, items.length ≤ (renderBody items).data.length
  | [] => by simp [renderBody]
  | [r] => by
    simp only [renderBody, List.length_singleton]
    exact renderItem_data_len r
  | r :: x :: xs => by
    rw [renderBody_cons_data]
    have h1 := renderBody_data_len (x :: xs)
    have h2 := renderItem_data_len r
    simp only [List.length_append, List.length_cons] at h1 h2 ⊢
    omega

theorem parseItemsAux_renderBody :
    ∀ (items : List LocationRecord) (fuel : Nat), items ≠ [] → items.length ≤ fuel →
      parseItemsAux fuel ((renderBody items).data ++ [']', '\x7d']) =
        some (items.map tripleOf)
  | [], _, h, _ => absurd rfl h
  | [r], fuel, _, hf => by
    match fuel, hf with
    | fuel + 1, _ =>
      show (parseItem ((renderItem r).data ++ [']', '\x7d'])).bind _ = _
      rw [parseItem_append]
      simp
  | r :: x :: xs, fuel, _, hf => by
    match fuel, hf with
    | fuel + 1, hf =>
      show (parseItem ((renderBody (r :: x :: xs)).data ++ [']', '\x7d'])).bind _ = _
      rw [renderBody_cons_data, List.append_assoc, List.cons_append, parseItem_append]
      simp only [Option.some_bind]
      rw [if_neg (by simp)]
      simp only [List.head?_cons, List.tail_cons]
      rw [if_pos trivial]
      rw [parseItemsAux_renderBody (x :: xs) fuel (by simp) (by
        simp only [List.length_cons] at hf ⊢
        omega)]
      simp

/-- C6: the json renderer emits, per record, exactly the three fields
`timestampMs`, `latitudeE7`, `longitudeE7` — its output does not depend on
the optional fields — and re-parsing the emitted document yields exactly the
`(timestampMs, latitudeE7, longitudeE7)` triples of the rendered list, in
order. -/
theorem renderJson_roundtrip (items : List LocationRecord) :
    parseLocations (renderJson items) = some (items.map tripleOf) ∧
      renderJson (items.map clearOptional) = renderJson items := by
  constructor
  · unfold parseLocations renderJson
    rw [string_data_append, string_data_append, List.append_assoc, dropLit_append]
    simp only [Option.some_bind]
    cases items with
    | nil =>
      show parseItemsList ([] ++ "]\x7d".data) = some []
      rfl
    | cons r rs =>
      unfold parseItemsList
      rw [if_neg (by
        intro h
        have hlen := congrArg List.length h
        have hb := renderBody_data_len (r :: rs)
        simp only [List.length_append, List.length_cons, List.length_nil] at hlen hb
        omega)]
      exact parseItemsAux_renderBody (r :: rs) _ (by simp)
        (le_trans (renderBody_data_len (r :: rs))
          (by simp only [List.length_append, List.length_cons, List.length_nil]; omega))
  · unfold renderJson
    have : ∀ l : List LocationRecord, renderBody (l.map clearOptional) = renderBody l := by
      intro l
      induction l with
      | nil => rfl
      | cons a t ih =>
        cases t with
        | nil => rfl
        | cons b t2 =>
          show renderItem (clearOptional a) ++ "," ++ renderBody ((b :: t2).map clearOptional) =
            renderItem a ++ "," ++ renderBody (b :: t2)
          rw [ih]
          rfl
    rw [this]

/-! ## Distance estimator (lines 264-278) and the gpxtracks renderer -/

/-- Model of `deg2rad(deg)` (lines 277-278). -/
noncomputable def deg2rad (deg : ℝ) : ℝ := deg * (Real.pi / 180)

open Classical in
/-- Model of Python `math.atan2(y, x)`: the angle of the point `(x, y)` in
`(-pi, pi]`, with `atan2(0, 0) = 0`. -/
noncomputable def atan2 (y x : ℝ) : ℝ :=
  if 0 < x then Real.arctan (y / x)
  else if x < 0 then
    (if 0 ≤ y then Real.arctan (y / x) + Real.pi else Real.arctan (y / x) - Real.pi)
  else (if 0 < y then Real.pi / 2 else if y < 0 then -(Real.pi / 2) else 0)

/-- Model of `getDistanceFromLatLonInKm(lat1, lon1, lat2, lon2)`
(lines 265-274): the Haversine great-circle distance, Earth radius 6371 km. -/
noncomputable def getDistanceFromLatLonInKm (lat1 lon1 lat2 lon2 : ℝ) : ℝ :=
  let R : ℝ := 6371
  let dlat := deg2rad (lat2 - lat1)
  let dlon := deg2rad (lon2 - lon1)
  let a := Real.sin (dlat / 2) * Real.sin (dlat / 2) +
    Real.cos (deg2rad lat1) * Real.cos (deg2rad lat2) *
    Real.sin (dlon / 2) * Real.sin (dlon / 2)
  let c := 2 * atan2 (Real.sqrt a) (Real.sqrt (1 - a))
  R * c

/-- Modelled from the spec: the `a` term of the spec formula
`a = sin²(Δlat/2) + cos(lat1)·cos(lat2)·sin²(Δlon/2)` (section 4.5). -/
noncomputable def havA (lat1 lon1 lat2 lon2 : ℝ) : ℝ :=
  Real.sin (deg2rad (lat2 - lat1) / 2) ^ 2 +
    Real.cos (deg2rad lat1) * Real.cos (deg2rad lat2) *
      Real.sin (deg2rad (lon2 - lon1) / 2) ^ 2

/-- Time gap in minutes between two records (line 227):
`abs((int(item) - int(lastloc)) / 1000 / 60)`. -/
def timedeltaMin (lastloc item : LocationRecord) : ℚ :=
  |((item.timestampMs - lastloc.timestampMs : Int) : ℚ) / 1000 / 60|

/-- Distance in km between two records (lines 228-231), E7 coordinates
converted to degrees. -/
noncomputable def distancedelta (lastloc item : LocationRecord) : ℝ :=
  getDistanceFromLatLonInKm ((item.latitudeE7 : ℝ) / 10000000)
    ((item.longitudeE7 : ℝ) / 10000000)
    ((lastloc.latitudeE7 : ℝ) / 10000000)
    ((lastloc.longitudeE7 : ℝ) / 10000000)

open Classical in
/-- Model of the break test at line 232:
`timedelta > 10 or distancedelta > 40`. -/
noncomputable def newTrack (lastloc item : LocationRecord) : Bool :=
  decide ((10 : ℚ) < timedeltaMin lastloc item ∨ (40 : ℝ) < distancedelta lastloc item)

/-- Model of the gpxtracks loop of lines 225-254: the running `<trk>` block
is `cur` (in reverse); a new block is opened whenever `newTrack` holds
between the previous and the current point. -/
noncomputable def gpxtracksAux (lastloc : LocationRecord) (cur : List LocationRecord) :
    List LocationRecord → List (List LocationRecord)
  | [] => [cur.reverse]
  | item :: rest =>
    if newTrack lastloc item then cur.reverse :: gpxtracksAux item [item] rest
    else gpxtracksAux item (item :: cur) rest

/-- Model of the gpxtracks renderer (lines 218-254), abstracted to its
`<trk>` block structure: the list of tracks, each a list of points.  (The
code opens one `<trk>`/`<trkseg>` before the loop and closes it after, so an
empty record list still yields one empty block.) -/
noncomputable def gpxtracksBlocks : List LocationRecord → List (List LocationRecord)
  | [] => [[]]
  | item :: rest => gpxtracksAux item [item] rest

/-! ## Evaluation lemmas for the distance estimator -/

/-- Product form of the `a` term, exactly as the source computes it
(lines 269-271). -/
noncomputable def havAmul (lat1 lon1 lat2 lon2 : ℝ) : ℝ :=
  Real.sin (deg2rad (lat2 - lat1) / 2) * Real.sin (deg2rad (lat2 - lat1) / 2) +
    Real.cos (deg2rad lat1) * Real.cos (deg2rad lat2) *
      Real.sin (deg2rad (lon2 - lon1) / 2) * Real.sin (deg2rad (lon2 - lon1) / 2)

theorem getDistance_eq (lat1 lon1 lat2 lon2 : ℝ) :
    getDistanceFromLatLonInKm lat1 lon1 lat2 lon2 =
      6371 * (2 * atan2 (Real.sqrt (havAmul lat1 lon1 lat2 lon2))
        (Real.sqrt (1 - havAmul lat1 lon1 lat2 lon2))) := rfl

theorem atan2_zero_one : atan2 0 1 = 0 := by
  unfold atan2
  rw [if_pos one_pos]
  norm_num [Real.arctan_zero]

theorem havAmul_self (lat lon : ℝ) : havAmul lat lon lat lon = 0 := by
  unfold havAmul deg2rad
  simp

theorem getDistance_self (lat lon : ℝ) : getDistanceFromLatLonInKm lat lon lat lon = 0 := by
  rw [getDistance_eq, havAmul_self, Real.sqrt_zero]
  norm_num [Real.sqrt_one, atan2_zero_one]

theorem distance_0_0_0_1 :
    getDistanceFromLatLonInKm 0 0 0 1 = 6371 * (2 * (Real.pi / 180 / 2)) := by
  have hθpos : 0 < Real.pi / 180 / 2 := by positivity
  have hθlt : Real.pi / 180 / 2 < Real.pi / 2 := by nlinarith [Real.pi_pos]
  have hsin : 0 ≤ Real.sin (Real.pi / 180 / 2) :=
    Real.sin_nonneg_of_nonneg_of_le_pi (le_of_lt hθpos) (by nlinarith [Real.pi_pos])
  have hcos : 0 < Real.cos (Real.pi / 180 / 2) :=
    Real.cos_pos_of_mem_Ioo ⟨by nlinarith [Real.pi_pos], hθlt⟩
  have hA : havAmul 0 0 0 1 =
      Real.sin (Real.pi / 180 / 2) * Real.sin (Real.pi / 180 / 2) := by
    unfold havAmul deg2rad
    norm_num
  rw [getDistance_eq, hA, Real.sqrt_mul_self hsin]
  have h1 : 1 - Real.sin (Real.pi / 180 / 2) * Real.sin (Real.pi / 180 / 2) =
      Real.cos (Real.pi / 180 / 2) * Real.cos (Real.pi / 180 / 2) := by
    nlinarith [Real.sin_sq_add_cos_sq (Real.pi / 180 / 2)]
  rw [h1, Real.sqrt_mul_self (le_of_lt hcos)]
  have h2 : atan2 (Real.sin (Real.pi / 180 / 2)) (Real.cos (Real.pi / 180 / 2)) =
      Real.pi / 180 / 2 := by
    unfold atan2
    rw [if_pos hcos, ← Real.tan_eq_sin_div_cos,
      Real.arctan_tan (by nlinarith [Real.pi_pos]) hθlt]
  rw [h2]

/-- C9: the distance estimator is a pure function computing the Haversine
great-circle distance with Earth radius 6371 km via the spec formula
`a = sin²(Δlat/2) + cos(lat1)·cos(lat2)·sin²(Δlon/2)`,
`d = 2·R·atan2(√a, √(1−a))`; the distance between (0,0) and (0,1) is within
0.5 km of 111.19 km. -/
theorem haversine_spec :
    (∀ lat1 lon1 lat2 lon2 : ℝ,
      getDistanceFromLatLonInKm lat1 lon1 lat2 lon2 =
        2 * 6371 * atan2 (Real.sqrt (havA lat1 lon1 lat2 lon2))
          (Real.sqrt (1 - havA lat1 lon1 lat2 lon2))) ∧
    |getDistanceFromLatLonInKm 0 0 0 1 - 111.19| ≤ 0.5 := by
  constructor
  · intro lat1 lon1 lat2 lon2
    rw [getDistance_eq]
    have h : havA lat1 lon1 lat2 lon2 = havAmul lat1 lon1 lat2 lon2 := by
      unfold havA havAmul
      ring
    rw [h]
    ring
  · rw [distance_0_0_0_1, abs_le]
    have h1 := Real.pi_gt_d2
    have h2 := Real.pi_lt_d2
    constructor <;> nlinarith

/-- C4: in gpxtracks output a new `<trk>` block starts between two
consecutive points exactly when the time gap exceeds 10 minutes or the
Haversine distance exceeds 40 km; for three chronological points with
successive gaps of 5 minutes and 15 minutes (both distances within 40 km,
e.g. 5 km), the output has exactly two `<trk>` blocks with the break
between point 2 and point 3. -/
theorem gpxtracks_segmentation :
    (∀ lastloc item : LocationRecord,
      newTrack lastloc item = true ↔
        (10 < timedeltaMin lastloc item ∨ (40 : ℝ) < distancedelta lastloc item)) ∧
    ∀ p1 p2 p3 : LocationRecord,
      p2.timestampMs - p1.timestampMs = 300000 →
      p3.timestampMs - p2.timestampMs = 900000 →
      distancedelta p1 p2 ≤ 40 → distancedelta p2 p3 ≤ 40 →
      gpxtracksBlocks [p1, p2, p3] = [[p1, p2], [p3]] ∧
        (gpxtracksBlocks [p1, p2, p3]).length = 2 := by
  constructor
  · intro lastloc item
    unfold newTrack
    rw [decide_eq_true_eq]
  · intro p1 p2 p3 h12 h23 hd12 hd23
    have ht12 : timedeltaMin p1 p2 = 5 := by
      unfold timedeltaMin
      rw [h12]
      norm_num
    have ht23 : timedeltaMin p2 p3 = 15 := by
      unfold timedeltaMin
      rw [h23]
      norm_num
    have hb12 : newTrack p1 p2 = false := by
      unfold newTrack
      rw [decide_eq_false_iff_not]
      rintro (h | h)
      · rw [ht12] at h
        norm_num at h
      · linarith
    have hb23 : newTrack p2 p3 = true := by
      unfold newTrack
      rw [decide_eq_true_eq]
      left
      rw [ht23]
      norm_num
    have hblocks : gpxtracksBlocks [p1, p2, p3] = [[p1, p2], [p3]] := by
      show gpxtracksAux p1 [p1] [p2, p3] = _
      simp [gpxtracksAux, hb12, hb23]
    exact ⟨hblocks, by rw [hblocks]; rfl⟩

/-- Concrete chronological points at one location with gaps of 5 and 15
minutes. -/
def wp1 : LocationRecord := { timestampMs := 0, latitudeE7 := 0, longitudeE7 := 0 }

/-- Second point, 5 minutes after `wp1`. -/
def wp2 : LocationRecord := { timestampMs := 300000, latitudeE7 := 0, longitudeE7 := 0 }

/-- Third point, 15 minutes after `wp2`. -/
def wp3 : LocationRecord := { timestampMs := 1200000, latitudeE7 := 0, longitudeE7 := 0 }

/-- Witness for C4 at the concrete three points. -/
theorem gpxtracks_segmentation_witness :
    gpxtracksBlocks [wp1, wp2, wp3] = [[wp1, wp2], [wp3]] ∧
      (gpxtracksBlocks [wp1, wp2, wp3]).length = 2 :=
  gpxtracks_segmentation.2 wp1 wp2 wp3 (by norm_num [wp1, wp2])
    (by norm_num [wp2, wp3])
    (by
      have h : distancedelta wp1 wp2 = 0 := by
        unfold distancedelta wp1 wp2
        norm_num [getDistance_self]
      rw [h]
      norm_num)
    (by
      have h : distancedelta wp2 wp3 = 0 := by
        unfold distancedelta wp2 wp3
        norm_num [getDistance_self]
      rw [h]
      norm_num)

/-! ## Claim theorems: date filter, argument handling, no-data, polygon -/

/-- C5: the date filter converts `timestampMs` to local epoch seconds by
dividing by 1000 and retains a record iff `timestamp >= start` (when given)
and `timestamp <= end` (when given); a record exactly at the start bound is
retained, a record one second earlier is excluded. -/
theorem dateCheck_spec :
    (∀ (ts : Int) (s e : Option ℚ),
      dateCheck ts s e = true ↔
        ((∀ sv, s = some sv → sv ≤ (ts : ℚ) / 1000) ∧
         (∀ ev, e = some ev → (ts : ℚ) / 1000 ≤ ev))) ∧
    (∀ (s : ℚ) (ts : Int), (ts : ℚ) / 1000 = s → dateCheck ts (some s) none = true) ∧
    (∀ (s : ℚ) (ts : Int), (ts : ℚ) / 1000 = s - 1 → dateCheck ts (some s) none = false) := by
  refine ⟨?_, ?_, ?_⟩
  · intro ts s e
    cases s with
    | none =>
      cases e with
      | none => simp [dateCheck]
      | some ev =>
        have hred : dateCheck ts none (some ev) = true ↔ ¬(ev < (ts : ℚ) / 1000) := by
          unfold dateCheck
          by_cases h2 : ev < (ts : ℚ) / 1000 <;> simp [h2]
        rw [hred]
        simp [not_lt]
    | some sv =>
      cases e with
      | none =>
        have hred : dateCheck ts (some sv) none = true ↔ ¬(sv > (ts : ℚ) / 1000) := by
          unfold dateCheck
          by_cases h1 : sv > (ts : ℚ) / 1000 <;> simp [h1]
        rw [hred]
        simp [not_lt]
      | some ev =>
        have hred : dateCheck ts (some sv) (some ev) = true ↔
            (¬(sv > (ts : ℚ) / 1000) ∧ ¬(ev < (ts : ℚ) / 1000)) := by
          unfold dateCheck
          by_cases h1 : sv > (ts : ℚ) / 1000 <;> by_cases h2 : ev < (ts : ℚ) / 1000 <;>
            simp [h1, h2]
        rw [hred]
        simp [not_lt]
  · intro s ts h
    simp [dateCheck, h]
  · intro s ts h
    simp [dateCheck, h]

/-- Witness for C5: with a start bound of 5 seconds, the record at exactly
5000 ms is retained and the record at 4000 ms (one second earlier) is not. -/
theorem dateCheck_spec_witness :
    dateCheck 5000 (some 5) none = true ∧ dateCheck 4000 (some 5) none = false :=
  ⟨dateCheck_spec.2.1 5 5000 (by norm_num), dateCheck_spec.2.2 5 4000 (by norm_num)⟩

/-- Record used for concrete `main` runs. -/
def sampleRecord : LocationRecord :=
  { timestampMs := 1493657963571, latitudeE7 := 150000000, longitudeE7 := 150000000 }

/-- Environment whose input parses to one location record. -/
def sampleEnv : Env :=
  { readResult := some "json", parseResult := fun _ => some { locations := some [sampleRecord] },
    canWriteOutput := true }

/-- Arguments with a three-point polygon. -/
def triPolyArgs : Args :=
  { input := "history.json", output := some "out.kml", format := Format.kml,
    jsVariable := "locationJsonData", startdate := none, enddate := none,
    chronological := false, polygon := some [(10, 10), (20, 20), (30, 10)] }

/-- C1 (code bug): with three or more supplied polygon points, the `ext`
construction runs `elem.split(",")` on `(float, float)` tuples and raises
`AttributeError` instead of filtering; a run with such a polygon crashes. -/
theorem polygon_three_points_crash :
    (∀ (q1 q2 q3 : ℚ × ℚ) (rest : List (ℚ × ℚ)),
      buildExt (q1 :: q2 :: q3 :: rest) =
        Except.error "AttributeError: tuple object has no attribute split") ∧
    runMain triPolyArgs sampleEnv =
      Outcome.crash "AttributeError: tuple object has no attribute split" := by
  exact ⟨fun q1 q2 q3 rest => rfl, rfl⟩

/-- Arguments with `--polygon` given zero point tokens. -/
def zeroPolyArgs : Args :=
  { input := "history.json", output := some "out.kml", format := Format.kml,
    jsVariable := "locationJsonData", startdate := none, enddate := none,
    chronological := false, polygon := some [] }

/-- Arguments with `--polygon` given exactly one point token. -/
def onePolyArgs : Args :=
  { input := "history.json", output := some "out.kml", format := Format.kml,
    jsVariable := "locationJsonData", startdate := none, enddate := none,
    chronological := false, polygon := some [(10, 10)] }

/-- C2 counterexample: with zero point tokens the empty list is falsy at
line 83, so no argument error is raised — the run reads the input and writes
output (the polygon option is silently ignored). -/
theorem polygon_zero_points_not_rejected :
    runMain zeroPolyArgs sampleEnv = Outcome.wrote "out.kml" [sampleRecord] := rfl

/-- C2 (amended): the argument error fires exactly when a non-empty list of
fewer than 2 points — i.e. exactly one point — is supplied; then the program
rejects before any file access (the outcome is the same for every
environment). -/
theorem polygon_one_point_rejected (args : Args) (env : Env) (p : ℚ × ℚ)
    (hio : args.input ≠ resolvedOutput args) (hp : args.polygon = some [p]) :
    runMain args env = Outcome.argError polygonErrMsg := by
  have h1 : (args.input == resolvedOutput args) = false := beq_eq_false_iff_ne.mpr hio
  simp only [runMain, h1, Bool.false_eq_true, if_false, hp, polygonTooFew]
  simp

/-- Witness for C2's amended theorem at concrete arguments. -/
theorem polygon_one_point_rejected_witness :
    runMain onePolyArgs sampleEnv = Outcome.argError polygonErrMsg :=
  polygon_one_point_rejected onePolyArgs sampleEnv (10, 10) (by decide) rfl

/-- C7: when the parsed document has no `locations` key or an empty
`locations` list, `main` takes the non-fatal no-data path and never reaches
the output-file `open` call. -/
theorem no_data_no_output (args : Args) (env : Env) (txt : String) (data : JsonDoc)
    (hio : args.input ≠ resolvedOutput args)
    (hpoly : polygonTooFew args.polygon = false)
    (hr : env.readResult = some txt)
    (hp : env.parseResult txt = some data)
    (hl : data.locations = none ∨ data.locations = some []) :
    runMain args env = Outcome.noData ∧ opensOutput args env = false := by
  have h1 : (args.input == resolvedOutput args) = false := beq_eq_false_iff_ne.mpr hio
  constructor
  · simp only [runMain, h1, Bool.false_eq_true, if_false, hpoly, hr, hp]
    rcases hl with h | h <;> rw [h] <;> simp
  · simp only [opensOutput, h1, Bool.false_eq_true, if_false, hpoly, hr, hp]
    rcases hl with h | h <;> rw [h] <;> simp

/-- Environment whose input parses to a document without a `locations` key. -/
def noDataEnv : Env :=
  { readResult := some "json", parseResult := fun _ => some { locations := none },
    canWriteOutput := true }

/-- Arguments with no polygon and distinct input/output paths. -/
def plainArgs : Args :=
  { input := "history.json", output := some "out.kml", format := Format.kml,
    jsVariable := "locationJsonData", startdate := none, enddate := none,
    chronological := false, polygon := none }

/-- Witness for C7 at a concrete missing-key document. -/
theorem no_data_no_output_witness :
    runMain plainArgs noDataEnv = Outcome.noData ∧
      opensOutput plainArgs noDataEnv = false :=
  no_data_no_output plainArgs noDataEnv "json" { locations := none } (by decide) rfl rfl rfl
    (Or.inl rfl)

/-- The 4-corner ring synthesized from the rectangle (10,10)-(20,20). -/
def rect1015 : List (ℚ × ℚ) := [(10, 10), (10, 20), (20, 20), (20, 10)]

/-- Record at 15.0 degrees latitude and longitude. -/
def rec15 : LocationRecord := { timestampMs := 1, latitudeE7 := 150000000, longitudeE7 := 150000000 }

/-- Record at 25.0 degrees latitude and longitude. -/
def rec25 : LocationRecord := { timestampMs := 2, latitudeE7 := 250000000, longitudeE7 := 250000000 }

/-- C8: exactly 2 polygon points synthesize the 4-corner ring in the fixed
winding order (bl.lat, bl.lon), (bl.lat, tr.lon), (tr.lat, tr.lon),
(tr.lat, bl.lon); on the rectangle (10,10)-(20,20) a record at degrees
(15,15) is retained by the filter and a record at (25,25) is excluded. -/
theorem rectangle_polygon_filter :
    buildExt [(10, 10), (20, 20)] = Except.ok rect1015 ∧
    check_point rect1015 150000000 150000000 = true ∧
    check_point rect1015 250000000 250000000 = false ∧
    processItems ⟨none, none, false, some rect1015⟩ [rec15, rec25] = [rec15] := by
  have h15 : check_point rect1015 ((150000000 : Int) : ℚ) ((150000000 : Int) : ℚ) = true := by
    norm_num [rect1015, check_point, polygonContains, ringEdges, onSegment, crossesRay,
      List.zip, List.zipWith, List.any, List.countP, List.countP.go]
  have h25 : check_point rect1015 ((250000000 : Int) : ℚ) ((250000000 : Int) : ℚ) = false := by
    norm_num [rect1015, check_point, polygonContains, ringEdges, onSegment, crossesRay,
      List.zip, List.zipWith, List.any, List.countP, List.countP.go]
  norm_num at h15 h25
  refine ⟨rfl, h15, h25, ?_⟩
  simp only [processItems, rec15, rec25]
  simp [List.filter, h15, h25]

/-- C10: the polygon filter's boundary convention is edge-exclusive: a point
on any edge of any ring is not contained (containment is strict interior
membership), and in particular the record at degrees (10,15), on the edge of
the rectangle (10,10)-(20,20), is excluded. -/
theorem polygon_boundary_excluded :
    (∀ (vs : List (ℚ × ℚ)) (q : ℚ × ℚ),
      ((ringEdges vs).any fun e => onSegment q e.1 e.2) = true →
      polygonContains vs q = false) ∧
    check_point rect1015 100000000 150000000 = false := by
  constructor
  · intro vs q h
    simp [polygonContains, h]
  · norm_num [rect1015, check_point, polygonContains, ringEdges, onSegment, crossesRay,
      List.zip, List.zipWith, List.any, List.countP, List.countP.go]

/-- Witness for C10: the point (10,15) lies on an edge of the rectangle ring
and is not contained. -/
theorem polygon_boundary_excluded_witness :
    polygonContains rect1015 (10, 15) = false :=
  polygon_boundary_excluded.1 rect1015 (10, 15)
    (by norm_num [rect1015, ringEdges, onSegment, List.zip, List.zipWith, List.any])
